import Mathlib

/-!
Shallow embedding of the ginrollbar middleware (src/ginrollbar.go) and of the
outer recovery layer used by its test harness (src/ginrollbar_test.go).

The middleware `LogRequests onlyPanics printStack requestIdCtxKey` wraps a gin
handler chain.  In a deferred function running after the chain (whether it
returned, aborted, or is unwinding from a panic) it

1. reports every accumulated `gin.Error` at error level when `onlyPanics` is
   false, reusing one metadata map across the loop and overwriting its
   `"meta"` entry for each item, then
2. recovers any in-flight panic, reports it at critical level with a stack
   skip of 3 and a fresh metadata map, and re-raises the identical value.

The embedding models the handler chain as an arbitrary function on the
request context (recording accumulated errors, response status, response
header and the panic value left in flight), and records the calls to the two
reporting entry points as a list of `Report` values in call order.
-/

namespace Ginrollbar

/-- Go values appearing as a panic value or as a gin error's `Meta` field;
`fmtSprint` renders them the way `fmt.Sprint` does. -/
inductive GoValue where
  | str : String → GoValue
  | int : Int → GoValue
deriving DecidableEq

/-- Rendering of a `GoValue` to a string, modelling Go's `fmt.Sprint`. -/
def fmtSprint : GoValue → String
  | GoValue.str s => s
  | GoValue.int n => toString n

/-- An accumulated gin error: the underlying error message (`item.Err`)
together with its associated metadata (`item.Meta`). -/
structure GinError where
  err : String
  meta : GoValue
deriving DecidableEq

/-- The request-scoped gin context as the middleware observes it once the
downstream chain has finished or unwound: request URI, response-writer
header, accumulated errors, response status, and the panic value in flight
(if any). -/
structure Context where
  requestURI : String
  header : List (String × String)
  errors : List GinError
  status : Nat
  panicVal : Option GoValue
deriving DecidableEq

/-- A recorded call to one of the two reporting entry points:
`errorR` models `RollbarError(item.Err, c.Request, extraData)` and
`criticalR` models `RollbarCritical(errors.New(fmt.Sprint(r)), c.Request, 3,
extraPanicData)`. -/
inductive Report where
  | errorR (errMsg : String) (requestURI : String) (extra : List (String × String))
  | criticalR (errMsg : String) (requestURI : String) (stackSkip : Nat)
      (extra : List (String × String))
deriving DecidableEq

/-- Read of a Go string-valued map (`m[k]` with presence). -/
def mapGet : List (String × String) → String → Option String
  | [], _ => none
  | (k', v') :: rest, k => if k' = k then some v' else mapGet rest k

/-- Write to a Go string-valued map (`m[k] = v`): overwrite an existing
binding in place, otherwise append. -/
def mapSet : List (String × String) → String → String → List (String × String)
  | [], k, v => [(k, v)]
  | (k', v') :: rest, k, v =>
      if k' = k then (k, v) :: rest else (k', v') :: mapSet rest k v

/-- Model of `c.Writer.Header().Get(key)`: the header value under `key`, or
the empty string when absent. -/
def headerGet (h : List (String × String)) (k : String) : String :=
  match mapGet h k with
  | some v => v
  | none => ""

/-- The metadata map built at lines 27-31 (as `extraData`, before the loop
adds `"meta"`) and again at lines 44-48 (as `extraPanicData`): the
`"endpoint"` entry holds `c.Request.RequestURI`, and when `requestIdCtxKey`
is non-empty a `"request_id"` entry holds the response-header value under
that key. -/
def reportBag (requestIdCtxKey : String) (c : Context) : List (String × String) :=
  let extraData := mapSet [] "endpoint" c.requestURI
  if requestIdCtxKey ≠ "" then
    mapSet extraData "request_id" (headerGet c.header requestIdCtxKey)
  else extraData

/-- The reporting loop of lines 32-35: one shared map is threaded through,
its `"meta"` entry overwritten with `fmt.Sprint(item.Meta)` before each
error-level report. -/
def errorLoop (uri : String) : List (String × String) → List GinError → List Report
  | _, [] => []
  | extraData, item :: rest =>
    let extraData2 := mapSet extraData "meta" (fmtSprint item.meta)
    Report.errorR item.err uri extraData2 :: errorLoop uri extraData2 rest

/-- The deferred function of `LogRequests` (lines 24-70), run on the context
left by the downstream chain.  Returns the reports made in call order, the
re-raised panic value (`panic(r)` at line 68), and whether the stack trace
was printed. -/
def deferredFunc (onlyPanics printStack : Bool) (requestIdCtxKey : String)
    (c : Context) : List Report × Option GoValue × Bool :=
  let errReports :=
    if onlyPanics = false ∧ 0 < c.errors.length then
      errorLoop c.requestURI (reportBag requestIdCtxKey c) c.errors
    else []
  match c.panicVal with
  | none => (errReports, none, false)
  | some r =>
      (errReports ++
        [Report.criticalR (fmtSprint r) c.requestURI 3 (reportBag requestIdCtxKey c)],
       some r, printStack)

/-- The outcome of running the wrapped pipeline on one request: the context
as the handler chain left it (the wrapper itself never mutates it, except in
the self-recovering variant below), the reporting calls in order, the panic
value propagated out of the wrapper (if any), and whether a stack trace was
printed. -/
structure RunResult where
  ctx : Context
  reports : List Report
  repanic : Option GoValue
  printedStack : Bool
deriving DecidableEq

/-- The middleware `LogRequests(onlyPanics, printStack, requestIdCtxKey)`
(lines 22-74): run the downstream chain (`c.Next()`, modelled by `handler`),
then the deferred function on the resulting context. -/
def LogRequests (onlyPanics printStack : Bool) (requestIdCtxKey : String)
    (handler : Context → Context) (c0 : Context) : RunResult :=
  let c := handler c0
  let out := deferredFunc onlyPanics printStack requestIdCtxKey c
  { ctx := c, reports := out.1, repanic := out.2.1, printedStack := out.2.2 }

/-- Modelled from the spec: the repository's second, near-duplicate wrapper
variant, which is not present under src/.  It performs the same error and
panic reporting as `LogRequests` but recovers the panic locally, converting
it into a fixed internal-server-error (500) response and stopping
propagation instead of re-raising. -/
def RecoverVariant (onlyPanics printStack : Bool) (requestIdCtxKey : String)
    (handler : Context → Context) (c0 : Context) : RunResult :=
  let c := handler c0
  let out := deferredFunc onlyPanics printStack requestIdCtxKey c
  match out.2.1 with
  | some _ =>
      { ctx := { c with status := 500 }, reports := out.1, repanic := none,
        printedStack := out.2.2 }
  | none =>
      { ctx := c, reports := out.1, repanic := none, printedStack := out.2.2 }

/-- The outer recovery middleware installed by the test harness
(src/ginrollbar_test.go lines 194-201): it recovers any panic propagated out
of `LogRequests` and aborts the request with status 500. -/
def outerRecovery (onlyPanics printStack : Bool) (requestIdCtxKey : String)
    (handler : Context → Context) (c0 : Context) : RunResult :=
  let run := LogRequests onlyPanics printStack requestIdCtxKey handler c0
  match run.repanic with
  | some _ => { run with ctx := { run.ctx with status := 500 }, repanic := none }
  | none => run

/-- Whether a report is an error-level report. -/
def isError : Report → Bool
  | Report.errorR .. => true
  | Report.criticalR .. => false

/-- Whether a report is a critical-level report. -/
def isCritical : Report → Bool
  | Report.errorR .. => false
  | Report.criticalR .. => true

/-- The metadata map a report carries. -/
def extraOf : Report → List (String × String)
  | Report.errorR _ _ e => e
  | Report.criticalR _ _ _ e => e

/-- The stack-skip count of a critical report (0 for error reports, which
carry none). -/
def skipOf : Report → Nat
  | Report.errorR .. => 0
  | Report.criticalR _ _ s _ => s

/-- A sample accumulated error, mirroring the test's `testError` with meta
`"some data"`. -/
def sampleError : GinError := { err := "test error", meta := GoValue.str "some data" }

/-- A fresh request context for `GET /` with one response header set. -/
def baseCtx : Context :=
  { requestURI := "/", header := [("X-Request-Id", "abc123")], errors := [],
    status := 200, panicVal := none }

/-- A handler that records two errors and then panics with "occurs panic". -/
def panicHandler : Context → Context := fun c =>
  { c with errors := c.errors ++ [sampleError, sampleError],
           panicVal := some (GoValue.str "occurs panic") }

/-- A handler that records two errors and aborts with status 400, without
panicking. -/
def errorOnlyHandler : Context → Context := fun c =>
  { c with errors := c.errors ++ [sampleError, sampleError], status := 400 }

/-- A handler that sets status 200 and records nothing. -/
def cleanHandler : Context → Context := fun c => { c with status := 200 }

/-! ### Map lemmas -/

theorem mapGet_mapSet_self (m : List (String × String)) (k v : String) :
    mapGet (mapSet m k v) k = some v := by
  induction m with
  | nil => simp [mapSet, mapGet]
  | cons p rest ih =>
    obtain ⟨a, b⟩ := p
    by_cases h : a = k
    · simp [mapSet, h, mapGet]
    · simp [mapSet, h, mapGet, ih]

theorem mapGet_mapSet_ne (m : List (String × String)) (k v k' : String)
    (h : k ≠ k') : mapGet (mapSet m k v) k' = mapGet m k' := by
  induction m with
  | nil => simp [mapSet, mapGet, h]
  | cons p rest ih =>
    obtain ⟨a, b⟩ := p
    by_cases ha : a = k
    · subst ha
      simp [mapSet, mapGet, h]
    · by_cases ha' : a = k'
      · simp [mapSet, mapGet, ha, ha', Ne.symm h]
      · simp [mapSet, mapGet, ha, ha', ih]

theorem mapSet_mapSet_self (m : List (String × String)) (k v v' : String) :
    mapSet (mapSet m k v) k v' = mapSet m k v' := by
  induction m with
  | nil => simp [mapSet]
  | cons p rest ih =>
    obtain ⟨a, b⟩ := p
    by_cases h : a = k
    · simp [mapSet, h]
    · simp [mapSet, h, ih]

/-! ### Report-bag lemmas -/

theorem reportBag_endpoint (key : String) (c : Context) :
    mapGet (reportBag key c) "endpoint" = some c.requestURI := by
  unfold reportBag
  by_cases h : key = ""
  · simp [h, mapGet_mapSet_self]
  · rw [if_pos h, mapGet_mapSet_ne _ _ _ _ (by decide), mapGet_mapSet_self]

theorem reportBag_requestId (key : String) (c : Context) :
    mapGet (reportBag key c) "request_id" =
      if key = "" then none else some (headerGet c.header key) := by
  unfold reportBag
  by_cases h : key = ""
  · simp [h, mapSet, mapGet]
  · rw [if_neg h, if_pos h, mapGet_mapSet_self]

theorem metaBag_endpoint (key : String) (c : Context) (v : String) :
    mapGet (mapSet (reportBag key c) "meta" v) "endpoint" = some c.requestURI := by
  rw [mapGet_mapSet_ne _ _ _ _ (by decide), reportBag_endpoint]

theorem metaBag_requestId (key : String) (c : Context) (v : String) :
    mapGet (mapSet (reportBag key c) "meta" v) "request_id" =
      if key = "" then none else some (headerGet c.header key) := by
  rw [mapGet_mapSet_ne _ _ _ _ (by decide), reportBag_requestId]

theorem metaBag_meta (key : String) (c : Context) (v : String) :
    mapGet (mapSet (reportBag key c) "meta" v) "meta" = some v :=
  mapGet_mapSet_self _ _ _

/-! ### Error-loop lemmas -/

theorem errorLoop_eq_map (uri : String) (es : List GinError) :
    ∀ bag : List (String × String),
      errorLoop uri bag es =
        es.map (fun item =>
          Report.errorR item.err uri (mapSet bag "meta" (fmtSprint item.meta))) := by
  induction es with
  | nil => intro bag; rfl
  | cons item rest ih =>
    intro bag
    simp only [errorLoop, List.map, ih (mapSet bag "meta" (fmtSprint item.meta))]
    have hfg :
        (fun it : GinError =>
          Report.errorR it.err uri
            (mapSet (mapSet bag "meta" (fmtSprint item.meta)) "meta"
              (fmtSprint it.meta))) =
        (fun it : GinError =>
          Report.errorR it.err uri (mapSet bag "meta" (fmtSprint it.meta))) := by
      funext it
      rw [mapSet_mapSet_self]
    rw [hfg]

/-! ### Shape of the reports produced by one run -/

/-- The error-level report made for a single accumulated error `item`, as the
loop of lines 32-35 makes it: the shared map's `"meta"` entry overwritten
with the rendering of that item's own metadata. -/
def errReportFor (key : String) (c : Context) (item : GinError) : Report :=
  Report.errorR item.err c.requestURI
    (mapSet (reportBag key c) "meta" (fmtSprint item.meta))

theorem isError_errReportFor (key : String) (c : Context) (item : GinError) :
    isError (errReportFor key c item) = true := rfl

theorem isCritical_errReportFor (key : String) (c : Context) (item : GinError) :
    isCritical (errReportFor key c item) = false := rfl

theorem filter_isError_errReports (key : String) (c : Context)
    (es : List GinError) :
    (es.map (errReportFor key c)).filter isError = es.map (errReportFor key c) := by
  induction es with
  | nil => rfl
  | cons item rest ih =>
    simp [List.filter_cons, isError_errReportFor, ih]

theorem filter_isCritical_errReports (key : String) (c : Context)
    (es : List GinError) :
    (es.map (errReportFor key c)).filter isCritical = [] := by
  induction es with
  | nil => rfl
  | cons item rest ih =>
    simp [List.filter_cons, isCritical_errReportFor, ih]

theorem logRequests_reports (op ps : Bool) (key : String)
    (handler : Context → Context) (c0 : Context) :
    (LogRequests op ps key handler c0).reports =
      (if op = false ∧ 0 < (handler c0).errors.length then
        (handler c0).errors.map (errReportFor key (handler c0))
       else [])
      ++ (match (handler c0).panicVal with
          | none => []
          | some r =>
              [Report.criticalR (fmtSprint r) (handler c0).requestURI 3
                (reportBag key (handler c0))]) := by
  unfold LogRequests deferredFunc errReportFor
  cases h : (handler c0).panicVal <;> simp [h, errorLoop_eq_map]

theorem logRequests_repanic (op ps : Bool) (key : String)
    (handler : Context → Context) (c0 : Context) :
    (LogRequests op ps key handler c0).repanic = (handler c0).panicVal := by
  unfold LogRequests deferredFunc
  cases h : (handler c0).panicVal <;> simp [h]

theorem logRequests_ctx (op ps : Bool) (key : String)
    (handler : Context → Context) (c0 : Context) :
    (LogRequests op ps key handler c0).ctx = handler c0 := rfl

theorem critical_reports_of_panic (op ps : Bool) (key : String)
    (handler : Context → Context) (c0 : Context) (r : GoValue)
    (hp : (handler c0).panicVal = some r) :
    (LogRequests op ps key handler c0).reports.filter isCritical =
      [Report.criticalR (fmtSprint r) (handler c0).requestURI 3
        (reportBag key (handler c0))] := by
  simp only [logRequests_reports, hp, List.filter_append]
  split
  · rw [filter_isCritical_errReports]
    simp [List.filter_cons, isCritical]
  · simp [List.filter_cons, isCritical]

theorem error_reports_eq (ps : Bool) (key : String)
    (handler : Context → Context) (c0 : Context) :
    (LogRequests false ps key handler c0).reports.filter isError =
      (handler c0).errors.map (errReportFor key (handler c0)) := by
  rw [logRequests_reports]
  cases hp : (handler c0).panicVal <;>
    rcases Nat.eq_zero_or_pos (handler c0).errors.length with h0 | h0
  · rw [if_neg (by simp [h0]), List.length_eq_zero.mp h0]
    simp
  · rw [if_pos ⟨rfl, h0⟩]
    simp [List.filter_append, filter_isError_errReports]
  · rw [if_neg (by simp [h0]), List.length_eq_zero.mp h0]
    simp [List.filter_cons, isError]
  · rw [if_pos ⟨rfl, h0⟩]
    simp [List.filter_append, filter_isError_errReports, List.filter_cons, isError]

/-! ### Claim theorems -/

/-- Claim C1: for every request whose handler panics, exactly one
critical-level report call is made, and that call carries a stack-skip value
of 3 and a metadata bag whose "endpoint" entry equals the request path. -/
theorem claim1_panic_one_critical (op ps : Bool) (key : String)
    (handler : Context → Context) (c0 : Context) (r : GoValue)
    (hp : (handler c0).panicVal = some r) :
    ((LogRequests op ps key handler c0).reports.filter isCritical).length = 1
    ∧ (LogRequests op ps key handler c0).reports.filter isCritical =
        [Report.criticalR (fmtSprint r) (handler c0).requestURI 3
          (reportBag key (handler c0))]
    ∧ mapGet (reportBag key (handler c0)) "endpoint" =
        some (handler c0).requestURI := by
  have h := critical_reports_of_panic op ps key handler c0 r hp
  exact ⟨by rw [h]; rfl, h, reportBag_endpoint key (handler c0)⟩

/-- Witness for C1 at a concrete panicking run. -/
theorem claim1_witness :
    (panicHandler baseCtx).panicVal = some (GoValue.str "occurs panic")
    ∧ (((LogRequests true false "" panicHandler baseCtx).reports.filter
          isCritical).length = 1
      ∧ (LogRequests true false "" panicHandler baseCtx).reports.filter isCritical =
          [Report.criticalR (fmtSprint (GoValue.str "occurs panic"))
            (panicHandler baseCtx).requestURI 3 (reportBag "" (panicHandler baseCtx))]
      ∧ mapGet (reportBag "" (panicHandler baseCtx)) "endpoint" =
          some (panicHandler baseCtx).requestURI) :=
  ⟨rfl, claim1_panic_one_critical true false "" panicHandler baseCtx
    (GoValue.str "occurs panic") rfl⟩

/-- Claim C2: with only-panics disabled, a request that accumulates N errors
causes exactly N error-level report calls, the i-th being the report for the
i-th accumulated error; each such report's metadata bag carries the request
path under "endpoint" and the string rendering of that entry's own metadata
under "meta". -/
theorem claim2_errors_reported (ps : Bool) (key : String)
    (handler : Context → Context) (c0 : Context) (item : GinError) :
    ((LogRequests false ps key handler c0).reports.filter isError).length =
      (handler c0).errors.length
    ∧ (LogRequests false ps key handler c0).reports.filter isError =
        (handler c0).errors.map (errReportFor key (handler c0))
    ∧ mapGet (extraOf (errReportFor key (handler c0) item)) "endpoint" =
        some (handler c0).requestURI
    ∧ mapGet (extraOf (errReportFor key (handler c0) item)) "meta" =
        some (fmtSprint item.meta) :=
  ⟨by rw [error_reports_eq]; simp,
   error_reports_eq ps key handler c0,
   metaBag_endpoint key (handler c0) (fmtSprint item.meta),
   metaBag_meta key (handler c0) (fmtSprint item.meta)⟩

set_option linter.unusedVariables false in
/-- Claim C3: with only-panics enabled, a request that accumulates at least
one error but does not panic produces zero error-level reports, and the
status set by the handler is preserved. -/
theorem claim3_onlyPanics_suppresses (ps : Bool) (key : String)
    (handler : Context → Context) (c0 : Context)
    (hne : 0 < (handler c0).errors.length)
    (hp : (handler c0).panicVal = none) :
    (LogRequests true ps key handler c0).reports.filter isError = []
    ∧ (LogRequests true ps key handler c0).ctx.status = (handler c0).status := by
  have h : (LogRequests true ps key handler c0).reports = [] := by
    simp only [logRequests_reports, hp]
    simp
  exact ⟨by rw [h]; rfl, rfl⟩

/-- Witness for C3 at a concrete run that records two errors, aborts with
status 400 and does not panic. -/
theorem claim3_witness :
    (0 < (errorOnlyHandler baseCtx).errors.length
      ∧ (errorOnlyHandler baseCtx).panicVal = none)
    ∧ ((LogRequests true false "" errorOnlyHandler baseCtx).reports.filter
          isError = []
      ∧ (LogRequests true false "" errorOnlyHandler baseCtx).ctx.status =
          (errorOnlyHandler baseCtx).status) :=
  ⟨⟨by decide, rfl⟩,
   claim3_onlyPanics_suppresses false "" errorOnlyHandler baseCtx (by decide) rfl⟩

/-- Claim C4: when errors are reportable (only-panics disabled, at least one
accumulated error) and the request also panics, the run's report list is the
error-level reports in accumulation order followed by the single
critical-level report, so every error-level report happens before the
critical one and none is lost to the panic. -/
theorem claim4_errors_before_panic (ps : Bool) (key : String)
    (handler : Context → Context) (c0 : Context) (r : GoValue)
    (hne : 0 < (handler c0).errors.length)
    (hp : (handler c0).panicVal = some r) :
    (LogRequests false ps key handler c0).reports =
      (handler c0).errors.map (errReportFor key (handler c0)) ++
        [Report.criticalR (fmtSprint r) (handler c0).requestURI 3
          (reportBag key (handler c0))]
    ∧ ((LogRequests false ps key handler c0).reports.filter isError).length =
        (handler c0).errors.length := by
  constructor
  · simp only [logRequests_reports, hp]
    rw [if_pos ⟨by trivial, hne⟩]
  · rw [error_reports_eq]
    simp

/-- Witness for C4 at a concrete run that records two errors and then
panics. -/
theorem claim4_witness :
    (0 < (panicHandler baseCtx).errors.length
      ∧ (panicHandler baseCtx).panicVal = some (GoValue.str "occurs panic"))
    ∧ ((LogRequests false false "" panicHandler baseCtx).reports =
        (panicHandler baseCtx).errors.map (errReportFor "" (panicHandler baseCtx)) ++
          [Report.criticalR (fmtSprint (GoValue.str "occurs panic"))
            (panicHandler baseCtx).requestURI 3 (reportBag "" (panicHandler baseCtx))]
      ∧ ((LogRequests false false "" panicHandler baseCtx).reports.filter
            isError).length = (panicHandler baseCtx).errors.length) :=
  ⟨⟨by decide, rfl⟩,
   claim4_errors_before_panic false "" panicHandler baseCtx
    (GoValue.str "occurs panic") (by decide) rfl⟩

/-- Claim C5: on a panic with value r, the critical-level report carries an
error whose message is the string rendering of r, and the wrapper re-raises
the panic with the identical value r. -/
theorem claim5_panic_value (op ps : Bool) (key : String)
    (handler : Context → Context) (c0 : Context) (r : GoValue)
    (hp : (handler c0).panicVal = some r) :
    ((LogRequests op ps key handler c0).reports.filter isCritical).head? =
      some (Report.criticalR (fmtSprint r) (handler c0).requestURI 3
        (reportBag key (handler c0)))
    ∧ (LogRequests op ps key handler c0).repanic = some r :=
  ⟨by rw [critical_reports_of_panic op ps key handler c0 r hp]; rfl,
   by rw [logRequests_repanic, hp]⟩

/-- Witness for C5 at a concrete panicking run. -/
theorem claim5_witness :
    (panicHandler baseCtx).panicVal = some (GoValue.str "occurs panic")
    ∧ (((LogRequests false false "" panicHandler baseCtx).reports.filter
          isCritical).head? =
        some (Report.criticalR (fmtSprint (GoValue.str "occurs panic"))
          (panicHandler baseCtx).requestURI 3 (reportBag "" (panicHandler baseCtx)))
      ∧ (LogRequests false false "" panicHandler baseCtx).repanic =
          some (GoValue.str "occurs panic")) :=
  ⟨rfl, claim5_panic_value false false "" panicHandler baseCtx
    (GoValue.str "occurs panic") rfl⟩

/-- Claim C6: a request with no panic and no accumulated errors causes no
reporting call at all, and the status set by the handler is preserved, for
either value of the only-panics flag. -/
theorem claim6_quiet_request (op ps : Bool) (key : String)
    (handler : Context → Context) (c0 : Context)
    (he : (handler c0).errors = [])
    (hp : (handler c0).panicVal = none) :
    (LogRequests op ps key handler c0).reports = []
    ∧ (LogRequests op ps key handler c0).ctx.status = (handler c0).status := by
  constructor
  · simp only [logRequests_reports, hp, he]
    simp
  · rfl

/-- Witness for C6 at a concrete quiet run. -/
theorem claim6_witness :
    ((cleanHandler baseCtx).errors = [] ∧ (cleanHandler baseCtx).panicVal = none)
    ∧ ((LogRequests false false "" cleanHandler baseCtx).reports = []
      ∧ (LogRequests false false "" cleanHandler baseCtx).ctx.status =
          (cleanHandler baseCtx).status) :=
  ⟨⟨rfl, rfl⟩, claim6_quiet_request false false "" cleanHandler baseCtx rfl rfl⟩

/-- Claim C7: every report's metadata bag has a "request_id" entry holding
the response-header value under the configured key exactly when the
configured key is non-empty; an empty key disables the entry. -/
theorem claim7_request_id (op ps : Bool) (key : String)
    (handler : Context → Context) (c0 : Context) (rep : Report)
    (hmem : rep ∈ (LogRequests op ps key handler c0).reports) :
    mapGet (extraOf rep) "request_id" =
      if key = "" then none else some (headerGet (handler c0).header key) := by
  rw [logRequests_reports] at hmem
  rcases List.mem_append.mp hmem with h | h
  · by_cases hc : op = false ∧ 0 < (handler c0).errors.length
    · rw [if_pos hc] at h
      rcases List.mem_map.mp h with ⟨item, -, rfl⟩
      exact metaBag_requestId key (handler c0) (fmtSprint item.meta)
    · rw [if_neg hc] at h
      exact absurd h (List.not_mem_nil rep)
  · cases hp : (handler c0).panicVal with
    | none =>
        rw [hp] at h
        exact absurd h (List.not_mem_nil rep)
    | some r =>
        rw [hp] at h
        rcases List.mem_singleton.mp h with rfl
        exact reportBag_requestId key (handler c0)

/-- Witness for C7 at a concrete run with a non-empty request-id key,
checked on the first error-level report. -/
theorem claim7_witness :
    errReportFor "X-Request-Id" (panicHandler baseCtx) sampleError ∈
      (LogRequests false false "X-Request-Id" panicHandler baseCtx).reports
    ∧ mapGet (extraOf (errReportFor "X-Request-Id" (panicHandler baseCtx)
        sampleError)) "request_id" =
        (if ("X-Request-Id" : String) = "" then none
         else some (headerGet (panicHandler baseCtx).header "X-Request-Id")) :=
  ⟨by decide,
   claim7_request_id false false "X-Request-Id" panicHandler baseCtx
    (errReportFor "X-Request-Id" (panicHandler baseCtx) sampleError) (by decide)⟩

/-- Claim C8: two distinct wrapper variants coexist: on a panicking run,
`LogRequests` re-raises the captured panic after the critical-level report,
while the near-duplicate `RecoverVariant` makes the same reports but recovers
the panic locally, converting it into a fixed 500 response and stopping
propagation. -/
theorem claim8_two_variants (op ps : Bool) (key : String)
    (handler : Context → Context) (c0 : Context) (r : GoValue)
    (hp : (handler c0).panicVal = some r) :
    (LogRequests op ps key handler c0).repanic = some r
    ∧ (RecoverVariant op ps key handler c0).repanic = none
    ∧ (RecoverVariant op ps key handler c0).ctx.status = 500
    ∧ (RecoverVariant op ps key handler c0).reports =
        (LogRequests op ps key handler c0).reports := by
  refine ⟨by rw [logRequests_repanic, hp], ?_, ?_, ?_⟩ <;>
    simp [RecoverVariant, LogRequests, deferredFunc, hp]

/-- Witness for C8 at a concrete panicking run. -/
theorem claim8_witness :
    (panicHandler baseCtx).panicVal = some (GoValue.str "occurs panic")
    ∧ ((LogRequests true false "" panicHandler baseCtx).repanic =
          some (GoValue.str "occurs panic")
      ∧ (RecoverVariant true false "" panicHandler baseCtx).repanic = none
      ∧ (RecoverVariant true false "" panicHandler baseCtx).ctx.status = 500
      ∧ (RecoverVariant true false "" panicHandler baseCtx).reports =
          (LogRequests true false "" panicHandler baseCtx).reports) :=
  ⟨rfl, claim8_two_variants true false "" panicHandler baseCtx
    (GoValue.str "occurs panic") rfl⟩

/-- Claim C9: the error-level report calls are made in accumulation order:
the i-th error-level report is exactly the report for the i-th accumulated
entry, carrying that entry's underlying error and the rendering of its own
metadata under "meta". -/
theorem claim9_reports_in_order (ps : Bool) (key : String)
    (handler : Context → Context) (c0 : Context) (i : Nat) :
    ((LogRequests false ps key handler c0).reports.filter isError)[i]? =
      ((handler c0).errors[i]?).map (errReportFor key (handler c0)) := by
  rw [error_reports_eq, List.getElem?_map]

/-- Claim C10: the wrapper never writes the response status or abort state:
its resulting context is exactly the one the handler chain produced, and the
500 status observed after a panic is produced by the outer recovery layer,
never by the wrapper itself. -/
theorem claim10_frame (op ps : Bool) (key : String)
    (handler : Context → Context) (c0 : Context) :
    (LogRequests op ps key handler c0).ctx = handler c0
    ∧ (outerRecovery op ps key handler c0).ctx =
        (match (handler c0).panicVal with
         | none => handler c0
         | some _ => { handler c0 with status := 500 }) := by
  refine ⟨rfl, ?_⟩
  have hrep := logRequests_repanic op ps key handler c0
  unfold outerRecovery
  cases hp : (handler c0).panicVal with
  | none =>
      rw [hp] at hrep
      simp [hrep, logRequests_ctx]
  | some r =>
      rw [hp] at hrep
      simp [hrep, logRequests_ctx]

end Ginrollbar
